import Mathlib

/-!
# Verification of the fedify federation request handlers

A shallow embedding of the federation HTTP-request dispatch core
(`acceptsJsonLd`, `handleActor`, `handleObject`, `handleCollection`,
`filterCollectionItems`, `handleInbox`).  External collaborators (the
`accepts` media-type parser, the signature verifiers, the key-value store,
the user-supplied callbacks) are modelled as oracle fields of an
environment structure; the control flow of each handler is translated
statement by statement from the source.  Each handler additionally emits a
trace of observable events (callback invocations, verification results,
key-value store accesses) in execution order, so that temporal and frame
properties can be stated.
-/

namespace Fedify

/-- Result of the external `accepts` media-type parser: `none` when the
request has no parseable `Accept` header, otherwise the accepted media
types in preference order. -/
def AcceptTypes : Type := Option (List String)

/-- Translation of `acceptsJsonLd` (source lines 30-39): returns `true`
with no parseable `Accept` header; `false` when the top preference is
HTML; otherwise checks for one of the three JSON media types. -/
def acceptsJsonLd (types : Option (List String)) : Bool :=
  match types with
  | none => true
  | some ts =>
    if ts.head? = some ("text/html") ∨ ts.head? = some ("application/xhtml+xml")
    then false
    else decide (("application/activity+json") ∈ ts ∨
                 ("application/ld+json") ∈ ts ∨
                 ("application/json") ∈ ts)

/-- Response body: a plain-text string, or the (opaque) JSON-LD
serialization of the dispatched entity. -/
inductive Body
  | text (s : String)
  | jsonLd
  deriving DecidableEq, Repr

/-- The parts of an HTTP response the core constructs explicitly. -/
structure Response where
  status : Nat
  body : Body
  contentType : Option String
  vary : Option String
  deriving DecidableEq, Repr

/-- `new Response(s, {status, headers: {"Content-Type": "text/plain; charset=utf-8"}})`. -/
def plainText (status : Nat) (s : String) : Response :=
  { status := status, body := Body.text s,
    contentType := some ("text/plain; charset=utf-8"), vary := none }

/-- The success response of the actor/object/collection responders:
status 200, JSON-LD body, `Content-Type: application/activity+json`,
`Vary: Accept`. -/
def jsonLdResponse : Response :=
  { status := 200, body := Body.jsonLd,
    contentType := some ("application/activity+json"), vary := some ("Accept") }

/-- The empty-body `202` response of the inbox pipeline. -/
def resp202empty : Response := plainText 202 ""

/-- Observable events of a single request, in execution order. -/
inductive Ev
  | actorGet
  | objectDispatch
  | collDispatch (cursor : Option String)
  | counterCall
  | firstCursorCall
  | lastCursorCall
  | negotiate
  | authCall (ok : Bool)
  | proofVerify (ok : Bool)
  | httpSigVerify (ok : Bool)
  | ownershipCheck (ok : Bool)
  | kvGetEv (key : List String)
  | kvSetTrue (key : List String) (ttlDays : Nat)
  | listenerCall (cls : Nat)
  deriving DecidableEq, Repr

/-- Prepend already-emitted events to the result of a later stage. -/
def withPre (pre : List Ev) (p : Response × List Ev) : Response × List Ev :=
  (p.1, pre ++ p.2)

/-! ## URL model

`Url` models a WHATWG URL as its non-query part plus the ordered list of
query parameters.  `setParams` follows `URLSearchParams.set` (replace the
first matching pair in place, drop later duplicates, append if absent);
`delParams` follows `URLSearchParams.delete`; `getParam` follows
`URLSearchParams.get` (first match). -/

structure Url where
  base : String
  params : List (String × String)
  deriving DecidableEq, Repr

def setParams : List (String × String) → String → String → List (String × String)
  | [], k, v => [(k, v)]
  | p :: rest, k, v =>
    if p.1 = k then (k, v) :: rest.filter (fun q => q.1 != k)
    else p :: setParams rest k v

def delParams (ps : List (String × String)) (k : String) : List (String × String) :=
  ps.filter (fun q => q.1 != k)

def getParam (u : Url) (k : String) : Option String :=
  (u.params.find? (fun p => p.1 == k)).map (fun p => p.2)

def setParamU (u : Url) (k v : String) : Url :=
  { u with params := setParams u.params k v }

def delParamU (u : Url) (k : String) : Url :=
  { u with params := delParams u.params k }

/-! ## Collection items (`filterCollectionItems`, source lines 278-305) -/

/-- A projected collection item: an `Object`, a `Link`, or a URL
(entities kept opaque as numeric identities). -/
inductive ProjItem
  | obj (o : Nat)
  | link (l : Nat)
  | url (u : Url)
  deriving DecidableEq, Repr

/-- A raw item produced by a collection dispatcher: `Object`, `Link`,
`URL`, or a `Recipient` with an optional `id`. -/
inductive RawItem
  | obj (o : Nat)
  | link (l : Nat)
  | url (u : Url)
  | recipient (id : Option Url)
  deriving DecidableEq, Repr

/-- The projection step of `filterCollectionItems`: `Object`/`Link`/`URL`
map to themselves, a recipient maps to its `id` URL, a recipient without
an `id` is dropped (`none`). -/
def projectItem : RawItem → Option ProjItem
  | RawItem.obj o => some (ProjItem.obj o)
  | RawItem.link l => some (ProjItem.link l)
  | RawItem.url u => some (ProjItem.url u)
  | RawItem.recipient none => none
  | RawItem.recipient (some u) => some (ProjItem.url u)

/-- Translation of `filterCollectionItems`: project each item, then (when
a filter predicate is supplied) drop the items it rejects.  The one-shot
warning has no observable effect beyond the log and is not modelled. -/
def filterCollectionItems (pred : Option (RawItem → Bool)) :
    List RawItem → List ProjItem
  | [] => []
  | item :: rest =>
    match projectItem item with
    | none => filterCollectionItems pred rest
    | some m =>
      match pred with
      | some p =>
        if p item then m :: filterCollectionItems pred rest
        else filterCollectionItems pred rest
      | none => m :: filterCollectionItems pred rest

/-! ## Collection projection values -/

/-- The `totalItems` value as emitted: the JS `null` (omitted), the JS
`NaN` produced by `Number(undefined)`, or a number. -/
inductive TotalItems
  | nullTI
  | nanTI
  | num (n : Int)
  deriving DecidableEq, Repr

/-- The counter callback result as seen by the handler:
`none` = callback absent (`undefined`), `some none` = callback returned
`null`, `some (some n)` = a number. -/
def CounterRes : Type := Option (Option Int)

/-- JS `Number(x)` for `x : undefined | null | number`:
`Number(undefined) = NaN`, `Number(null) = 0`. -/
def jsNumber : Option (Option Int) → TotalItems
  | none => TotalItems.nanTI
  | some none => TotalItems.num 0
  | some (some n) => TotalItems.num n

/-- `totalItems == null ? null : Number(totalItems)` (inline branch). -/
def inlineTotal : Option (Option Int) → TotalItems
  | none => TotalItems.nullTI
  | some none => TotalItems.nullTI
  | some (some n) => TotalItems.num n

/-- The collection object serialized on the success path: either an
`OrderedCollection{totalItems, items?, first?, last?}` or an
`OrderedCollectionPage{prev?, next?, items, partOf}`. -/
inductive Collection
  | collection (totalItems : TotalItems) (items : Option (List ProjItem))
      (first : Option Url) (last : Option Url)
  | page (prev : Option Url) (next : Option Url)
      (items : List ProjItem) (partOf : Url)
  deriving DecidableEq, Repr

/-! ## Actor responder (`handleActor`, source lines 51-81) -/

structure ActorEnv where
  /-- `actorDispatcher != null` -/
  dispatcherSet : Bool
  /-- whether `context.getActor(handle)` yields an actor -/
  actorFound : Bool
  /-- the parsed `Accept` header -/
  accept : Option (List String)
  /-- `authorizePredicate != null` -/
  authSet : Bool
  /-- the predicate result when invoked -/
  authOk : Bool
  onNotFound : Response
  onNotAcceptable : Response
  onUnauthorized : Response

def handleActor (env : ActorEnv) : Response × List Ev :=
  if env.dispatcherSet then
    if env.actorFound then
      if acceptsJsonLd env.accept then
        if env.authSet then
          if env.authOk then (jsonLdResponse, [Ev.actorGet, Ev.negotiate, Ev.authCall true])
          else (env.onUnauthorized, [Ev.actorGet, Ev.negotiate, Ev.authCall false])
        else (jsonLdResponse, [Ev.actorGet, Ev.negotiate])
      else (env.onNotAcceptable, [Ev.actorGet, Ev.negotiate])
    else (env.onNotFound, [Ev.actorGet])
  else (env.onNotFound, [])

/-! ## Object responder (`handleObject`, source lines 93-123) -/

structure ObjectEnv where
  /-- `objectDispatcher != null` -/
  dispatcherSet : Bool
  /-- whether `objectDispatcher(context, values)` yields an object -/
  objectFound : Bool
  accept : Option (List String)
  authSet : Bool
  authOk : Bool
  onNotFound : Response
  onNotAcceptable : Response
  onUnauthorized : Response

def handleObject (env : ObjectEnv) : Response × List Ev :=
  if env.dispatcherSet then
    if env.objectFound then
      if acceptsJsonLd env.accept then
        if env.authSet then
          if env.authOk then (jsonLdResponse, [Ev.objectDispatch, Ev.negotiate, Ev.authCall true])
          else (env.onUnauthorized, [Ev.objectDispatch, Ev.negotiate, Ev.authCall false])
        else (jsonLdResponse, [Ev.objectDispatch, Ev.negotiate])
      else (env.onNotAcceptable, [Ev.objectDispatch, Ev.negotiate])
    else (env.onNotFound, [Ev.objectDispatch])
  else (env.onNotFound, [])

/-! ## Collection responder (`handleCollection`, source lines 167-276) -/

/-- The page shape returned by a collection dispatcher. -/
structure Page where
  items : List RawItem
  prevCursor : Option String
  nextCursor : Option String
  deriving DecidableEq, Repr

structure CollEnv where
  /-- `collectionCallbacks != null` -/
  callbacksSet : Bool
  /-- `collectionCallbacks.dispatcher(context, handle, cursor, filter)` -/
  dispatch : Option String → Option Page
  counterSet : Bool
  /-- the counter result when invoked (`none` = returned `null`) -/
  counterVal : Option Int
  firstCursorSet : Bool
  firstCursorVal : Option String
  lastCursorSet : Bool
  lastCursorVal : Option String
  /-- `collectionCallbacks.authorizePredicate != null` -/
  authSet : Bool
  authOk : Bool
  accept : Option (List String)
  /-- the request URL (also `context.url`) -/
  url : Url
  /-- `filterPredicate != null` -/
  filterSet : Bool
  filterPred : RawItem → Bool
  onNotFound : Response
  onNotAcceptable : Response
  onUnauthorized : Response

/-- The optional filter predicate as passed to `filterCollectionItems`. -/
def collFilter (env : CollEnv) : Option (RawItem → Bool) :=
  if env.filterSet then some env.filterPred else none

/-- The phase of `handleCollection` that computes the `collection` local
variable (source lines 186-253): `none` models falling into one of the
two dispatcher-returned-null `onNotFound` exits. -/
def collectionPhase (env : CollEnv) : Option Collection × List Ev :=
  match getParam env.url ("cursor") with
  | none =>
    let fcEvs := if env.firstCursorSet then [Ev.firstCursorCall] else []
    let firstCursor := if env.firstCursorSet then env.firstCursorVal else none
    let cntEvs := if env.counterSet then [Ev.counterCall] else []
    let totalItems : Option (Option Int) :=
      if env.counterSet then some env.counterVal else none
    match firstCursor with
    | none =>
      match env.dispatch none with
      | none => (none, fcEvs ++ cntEvs ++ [Ev.collDispatch none])
      | some page =>
        (some (Collection.collection (inlineTotal totalItems)
          (some (filterCollectionItems (collFilter env) page.items)) none none),
         fcEvs ++ cntEvs ++ [Ev.collDispatch none])
    | some fc =>
      let lcEvs := if env.lastCursorSet then [Ev.lastCursorCall] else []
      let lastCursor := if env.lastCursorSet then env.lastCursorVal else none
      (some (Collection.collection (jsNumber totalItems) none
        (some (setParamU env.url ("cursor") fc))
        (lastCursor.map (fun lc => setParamU env.url ("cursor") lc))),
       fcEvs ++ cntEvs ++ lcEvs)
  | some c =>
    match env.dispatch (some c) with
    | none => (none, [Ev.collDispatch (some c)])
    | some page =>
      (some (Collection.page
        (page.prevCursor.map (fun pc => setParamU env.url ("cursor") pc))
        (page.nextCursor.map (fun nc => setParamU env.url ("cursor") nc))
        (filterCollectionItems (collFilter env) page.items)
        (delParamU env.url ("cursor"))),
       [Ev.collDispatch (some c)])

/-- Translation of `handleCollection`: missing callbacks bundle, then the
collection-building phase, then content negotiation, then authorization,
then the success response carrying the built collection. -/
def handleCollection (env : CollEnv) : (Response × Option Collection) × List Ev :=
  if env.callbacksSet then
    match collectionPhase env with
    | (none, evs) => ((env.onNotFound, none), evs)
    | (some coll, evs) =>
      if acceptsJsonLd env.accept then
        if env.authSet then
          if env.authOk then
            ((jsonLdResponse, some coll), evs ++ [Ev.negotiate, Ev.authCall true])
          else
            ((env.onUnauthorized, none), evs ++ [Ev.negotiate, Ev.authCall false])
        else ((jsonLdResponse, some coll), evs ++ [Ev.negotiate])
      else ((env.onNotAcceptable, none), evs ++ [Ev.negotiate])
  else ((env.onNotFound, none), [])

/-! ## Inbox pipeline (`handleInbox`, source lines 322-473) -/

/-- A JS value as read back from the key-value store.  The source checks
`cached === true` (strict equality with the boolean `true`). -/
inductive KvValue
  | vBool (b : Bool)
  | vNull
  | vNum (n : Int)
  | vStr (s : String)
  deriving DecidableEq, Repr

/-- JS truthiness of a stored value. -/
def truthy : KvValue → Bool
  | KvValue.vBool b => b
  | KvValue.vNull => false
  | KvValue.vNum n => n != 0
  | KvValue.vStr s => s != ""

/-- An activity as the pipeline observes it: its optional `id` (the IRI
href), its optional `actorId`, and its prototype chain of class
identities starting at the concrete class.  A well-formed chain ends at
the `Activity` root class. -/
structure ActivityV where
  id : Option String
  actorId : Option String
  chain : List Nat
  deriving DecidableEq, Repr

/-- The class identity of the `Activity` root. -/
def activityRoot : Nat := 0

/-- The listener-resolution walk (source lines 430-447): probe the
listener registrations at each level of the prototype chain; stop with
the first hit; stop empty-handed on passing the unregistered root. -/
def resolveListener (reg : List Nat) : List Nat → Option Nat
  | [] => none
  | c :: rest =>
    if c ∈ reg then some c
    else if c = activityRoot then none
    else resolveListener reg rest

structure InboxEnv where
  /-- `actorDispatcher != null` -/
  dispatcherSet : Bool
  /-- the inbox owner handle (`null` for the shared inbox) -/
  handle : Option String
  /-- whether `context.getActor(handle)` yields an actor -/
  getActor : String → Bool
  /-- whether `request.clone().json()` parses -/
  parseOk : Bool
  /-- `verifyObject(Activity, json, context)`: throws, or returns
  `null`, or returns a proof-verified activity -/
  verifyObjectRes : Except Unit (Option ActivityV)
  /-- `verifyRequest(request, ...)`: the signing key, if any -/
  verifyRequestRes : Option Unit
  /-- `Activity.fromJsonLd(json, context)` on the HTTP-signature path -/
  fromJsonLdAct : ActivityV
  /-- the configured idempotency-key namespace -/
  kvPref : List String
  /-- `kv.get` -/
  kvGet : List String → Option KvValue
  /-- `doesActorOwnKey(activity, httpSigKey, context)` -/
  ownsKey : Bool
  /-- the classes with registered inbox listeners -/
  listeners : List Nat
  /-- whether the chosen listener throws -/
  listenerThrows : Bool
  onNotFound : Response

/-- Stage 1 handle check: `handle != null` requires the actor to resolve. -/
def inboxHandleOk (env : InboxEnv) : Bool :=
  match env.handle with
  | none => true
  | some h => env.getActor h

/-- The activity the pipeline processes, when one is obtained: the
proof-verified activity, or (when the proof verifier returns `null` and
the HTTP signature verifies) the plain JSON-LD deserialization. -/
def inboxActivity (env : InboxEnv) : Option ActivityV :=
  match env.verifyObjectRes with
  | Except.error _ => none
  | Except.ok (some act) => some act
  | Except.ok none =>
    match env.verifyRequestRes with
    | none => none
    | some _ => some env.fromJsonLdAct

/-- Listener resolution, dispatch and idempotency commit
(source lines 430-473). -/
def inboxTail3 (env : InboxEnv) (act : ActivityV) (cacheKey : Option (List String)) :
    Response × List Ev :=
  match resolveListener env.listeners act.chain with
  | none => (resp202empty, [])
  | some c =>
    if env.listenerThrows then
      (plainText 500 ("Internal server error."), [Ev.listenerCall c])
    else
      match cacheKey with
      | some k => (resp202empty, [Ev.listenerCall c, Ev.kvSetTrue k 1])
      | none => (resp202empty, [Ev.listenerCall c])

/-- Actor presence and key-ownership checks (source lines 405-429). -/
def inboxTail2 (env : InboxEnv) (act : ActivityV) (httpSig : Bool)
    (cacheKey : Option (List String)) : Response × List Ev :=
  match act.actorId with
  | none => (plainText 400 ("Missing actor."), [])
  | some _ =>
    if httpSig then
      if env.ownsKey then withPre [Ev.ownershipCheck true] (inboxTail3 env act cacheKey)
      else (plainText 401 ("The signer and the actor do not match."),
            [Ev.ownershipCheck false])
    else inboxTail3 env act cacheKey

/-- Idempotency check (source lines 386-404) and the rest of the
pipeline. -/
def inboxTail (env : InboxEnv) (act : ActivityV) (httpSig : Bool) :
    Response × List Ev :=
  match act.id with
  | none => inboxTail2 env act httpSig none
  | some i =>
    if env.kvGet (env.kvPref ++ [i]) = some (KvValue.vBool true) then
      (plainText 202 ("Activity <" ++ i ++ "> has already been processed."),
       [Ev.kvGetEv (env.kvPref ++ [i])])
    else
      withPre [Ev.kvGetEv (env.kvPref ++ [i])]
        (inboxTail2 env act httpSig (some (env.kvPref ++ [i])))

/-- Translation of `handleInbox`: configuration sanity, body parse,
activity extraction with the embedded-proof path, HTTP-signature
fallback, then the idempotency/ownership/dispatch tail. -/
def handleInbox (env : InboxEnv) : Response × List Ev :=
  if env.dispatcherSet then
    if inboxHandleOk env then
      if env.parseOk then
        match env.verifyObjectRes with
        | Except.error _ => (plainText 400 ("Invalid activity."), [Ev.proofVerify false])
        | Except.ok (some act) => withPre [Ev.proofVerify true] (inboxTail env act false)
        | Except.ok none =>
          match env.verifyRequestRes with
          | none => (plainText 401 ("Failed to verify the request signature."),
                     [Ev.proofVerify false, Ev.httpSigVerify false])
          | some _ =>
            withPre [Ev.proofVerify false, Ev.httpSigVerify true]
              (inboxTail env env.fromJsonLdAct true)
      else (plainText 400 ("Invalid JSON."), [])
    else (env.onNotFound, [])
  else (env.onNotFound, [])

/-! ## Claim theorems -/

/-- C5: `acceptsJsonLd` returns true when the request has no parseable
Accept header; returns false when the top preference of the parsed
accepted types is `text/html` or `application/xhtml+xml`; and otherwise
returns true iff the accepted types contain `application/activity+json`,
`application/ld+json`, or `application/json`. -/
theorem acceptsJsonLd_spec :
    acceptsJsonLd none = true ∧
    (∀ ts : List String,
      ts.head? = some ("text/html") ∨ ts.head? = some ("application/xhtml+xml") →
      acceptsJsonLd (some ts) = false) ∧
    (∀ ts : List String,
      ¬(ts.head? = some ("text/html") ∨ ts.head? = some ("application/xhtml+xml")) →
      (acceptsJsonLd (some ts) = true ↔
        ("application/activity+json") ∈ ts ∨
        ("application/ld+json") ∈ ts ∨
        ("application/json") ∈ ts)) := by
  refine ⟨rfl, ?_, ?_⟩
  · intro ts h
    simp only [acceptsJsonLd, if_pos h]
  · intro ts h
    simp only [acceptsJsonLd, if_neg h, decide_eq_true_eq]

/-- Witness for C5 at concrete inputs. -/
theorem acceptsJsonLd_spec_witness :
    acceptsJsonLd (some ["text/html", "application/activity+json"]) = false ∧
    (acceptsJsonLd (some ["application/ld+json"]) = true ↔
      ("application/activity+json") ∈ (["application/ld+json"] : List String) ∨
      ("application/ld+json") ∈ (["application/ld+json"] : List String) ∨
      ("application/json") ∈ (["application/ld+json"] : List String)) :=
  ⟨acceptsJsonLd_spec.2.1 ["text/html", "application/activity+json"] (by decide),
   acceptsJsonLd_spec.2.2 ["application/ld+json"] (by decide)⟩

/-- Every event the collection-building phase emits is a collection
callback invocation (dispatcher, counter, or one of the two cursor
callbacks). -/
lemma collectionPhase_evs (env : CollEnv) :
    ∀ e ∈ (collectionPhase env).2, e = Ev.counterCall ∨ e = Ev.firstCursorCall ∨
      e = Ev.lastCursorCall ∨ ∃ c, e = Ev.collDispatch c := by
  intro e he
  simp only [collectionPhase] at he
  repeat' split at he
  all_goals simp_all
  all_goals tauto

lemma collectionPhase_no_negotiate (env : CollEnv) :
    Ev.negotiate ∉ (collectionPhase env).2 := by
  intro h
  rcases collectionPhase_evs env _ h with h' | h' | h' | ⟨c, h'⟩ <;> simp at h'

lemma collectionPhase_no_auth (env : CollEnv) (b : Bool) :
    Ev.authCall b ∉ (collectionPhase env).2 := by
  intro h
  rcases collectionPhase_evs env _ h with h' | h' | h' | ⟨c, h'⟩ <;> simp at h'

/-- C4: in the actor, object, and collection responders, a missing
dispatcher (or a dispatcher returning null) yields the `onNotFound`
response before content negotiation is consulted; a failed content
negotiation yields the `onNotAcceptable` response before the
authorization predicate is consulted; and a configured authorization
predicate returning false yields the `onUnauthorized` response — in all
three responders. -/
theorem responder_precedence :
    (∀ env : ActorEnv,
      (env.dispatcherSet = false ∨ env.actorFound = false →
        (handleActor env).1 = env.onNotFound ∧
        Ev.negotiate ∉ (handleActor env).2 ∧
        ∀ b, Ev.authCall b ∉ (handleActor env).2) ∧
      (env.dispatcherSet = true → env.actorFound = true →
        acceptsJsonLd env.accept = false →
        (handleActor env).1 = env.onNotAcceptable ∧
        ∀ b, Ev.authCall b ∉ (handleActor env).2) ∧
      (env.dispatcherSet = true → env.actorFound = true →
        acceptsJsonLd env.accept = true → env.authSet = true → env.authOk = false →
        (handleActor env).1 = env.onUnauthorized)) ∧
    (∀ env : ObjectEnv,
      (env.dispatcherSet = false ∨ env.objectFound = false →
        (handleObject env).1 = env.onNotFound ∧
        Ev.negotiate ∉ (handleObject env).2 ∧
        ∀ b, Ev.authCall b ∉ (handleObject env).2) ∧
      (env.dispatcherSet = true → env.objectFound = true →
        acceptsJsonLd env.accept = false →
        (handleObject env).1 = env.onNotAcceptable ∧
        ∀ b, Ev.authCall b ∉ (handleObject env).2) ∧
      (env.dispatcherSet = true → env.objectFound = true →
        acceptsJsonLd env.accept = true → env.authSet = true → env.authOk = false →
        (handleObject env).1 = env.onUnauthorized)) ∧
    (∀ env : CollEnv,
      (env.callbacksSet = false ∨ (collectionPhase env).1 = none →
        (handleCollection env).1.1 = env.onNotFound ∧
        Ev.negotiate ∉ (handleCollection env).2 ∧
        ∀ b, Ev.authCall b ∉ (handleCollection env).2) ∧
      (∀ coll, env.callbacksSet = true → (collectionPhase env).1 = some coll →
        acceptsJsonLd env.accept = false →
        (handleCollection env).1.1 = env.onNotAcceptable ∧
        ∀ b, Ev.authCall b ∉ (handleCollection env).2) ∧
      (∀ coll, env.callbacksSet = true → (collectionPhase env).1 = some coll →
        acceptsJsonLd env.accept = true → env.authSet = true → env.authOk = false →
        (handleCollection env).1.1 = env.onUnauthorized)) := by
  refine ⟨?_, ?_, ?_⟩
  · intro env
    refine ⟨?_, ?_, ?_⟩
    · rintro (h | h) <;> by_cases hd : env.dispatcherSet <;>
        by_cases ha : env.actorFound <;> simp_all [handleActor]
    · intro h1 h2 h3
      simp [handleActor, h1, h2, h3]
    · intro h1 h2 h3 h4 h5
      simp [handleActor, h1, h2, h3, h4, h5]
  · intro env
    refine ⟨?_, ?_, ?_⟩
    · rintro (h | h) <;> by_cases hd : env.dispatcherSet <;>
        by_cases ha : env.objectFound <;> simp_all [handleObject]
    · intro h1 h2 h3
      simp [handleObject, h1, h2, h3]
    · intro h1 h2 h3 h4 h5
      simp [handleObject, h1, h2, h3, h4, h5]
  · intro env
    refine ⟨?_, ?_, ?_⟩
    · intro h
      by_cases hcb : env.callbacksSet
      · rcases h with h | h
        · simp_all
        · rcases hphase : collectionPhase env with ⟨oc, evs⟩
          rw [hphase] at h
          simp only at h
          subst h
          have hnn := collectionPhase_no_negotiate env
          have hna := collectionPhase_no_auth env
          rw [hphase] at hnn hna
          simp only at hnn hna
          refine ⟨by simp [handleCollection, hphase, hcb], ?_, ?_⟩
          · simpa [handleCollection, hphase, hcb] using hnn
          · intro b
            simpa [handleCollection, hphase, hcb] using hna b
      · simp only [Bool.not_eq_true] at hcb
        simp [handleCollection, hcb]
    · intro coll h1 h2 h3
      rcases hphase : collectionPhase env with ⟨oc, evs⟩
      rw [hphase] at h2
      simp only at h2
      subst h2
      have hna := collectionPhase_no_auth env
      rw [hphase] at hna
      simp only at hna
      refine ⟨by simp [handleCollection, hphase, h1, h3], ?_⟩
      intro b
      have : (handleCollection env).2 = evs ++ [Ev.negotiate] := by
        simp [handleCollection, hphase, h1, h3]
      rw [this]
      simp [hna b]
    · intro coll h1 h2 h3 h4 h5
      rcases hphase : collectionPhase env with ⟨oc, evs⟩
      rw [hphase] at h2
      simp only at h2
      subst h2
      simp [handleCollection, hphase, h1, h3, h4, h5]

def w4ActorEnv : ActorEnv :=
  { dispatcherSet := false, actorFound := true, accept := none,
    authSet := false, authOk := false,
    onNotFound := plainText 404 ("nf"), onNotAcceptable := plainText 406 ("na"),
    onUnauthorized := plainText 401 ("ua") }

def w4ObjectEnv : ObjectEnv :=
  { dispatcherSet := true, objectFound := true, accept := some [("text/html")],
    authSet := false, authOk := false,
    onNotFound := plainText 404 ("nf"), onNotAcceptable := plainText 406 ("na"),
    onUnauthorized := plainText 401 ("ua") }

def w4CollEnv : CollEnv :=
  { callbacksSet := true, dispatch := fun _ => some ⟨[], none, none⟩,
    counterSet := false, counterVal := none,
    firstCursorSet := false, firstCursorVal := none,
    lastCursorSet := false, lastCursorVal := none,
    authSet := true, authOk := false, accept := none,
    url := ⟨"https://h/x", []⟩, filterSet := false, filterPred := fun _ => true,
    onNotFound := plainText 404 ("nf"), onNotAcceptable := plainText 406 ("na"),
    onUnauthorized := plainText 401 ("ua") }

/-- Witness for C4 at concrete environments: a 404 from a missing actor
dispatcher, a 406 from an HTML-preferring object request, and a 401 from
a denied collection authorization. -/
theorem responder_precedence_witness :
    (handleActor w4ActorEnv).1 = w4ActorEnv.onNotFound ∧
    (handleObject w4ObjectEnv).1 = w4ObjectEnv.onNotAcceptable ∧
    (handleCollection w4CollEnv).1.1 = w4CollEnv.onUnauthorized :=
  ⟨((responder_precedence.1 w4ActorEnv).1 (Or.inl rfl)).1,
   ((responder_precedence.2.1 w4ObjectEnv).2.1 rfl rfl (by decide)).1,
   (responder_precedence.2.2 w4CollEnv).2.2
     (Collection.collection TotalItems.nullTI (some []) none none)
     rfl (by decide) (by decide) rfl rfl⟩

/-- C7: for every collection page response (cursor supplied, dispatcher
returning a page), the emitted `OrderedCollectionPage` has `partOf` equal
to the request URL with the `cursor` query parameter removed, and `prev`
(resp. `next`) present exactly when the page's `prevCursor` (resp.
`nextCursor`) is non-null, equal to the request URL with `cursor`
replaced by that cursor value. -/
theorem collection_page_links (env : CollEnv) (c : String) (page : Page)
    (hcb : env.callbacksSet = true)
    (hcur : getParam env.url ("cursor") = some c)
    (hdisp : env.dispatch (some c) = some page)
    (hacc : acceptsJsonLd env.accept = true)
    (hauth : env.authSet = true → env.authOk = true) :
    (handleCollection env).1.2 = some (Collection.page
      (page.prevCursor.map (fun pc => setParamU env.url ("cursor") pc))
      (page.nextCursor.map (fun nc => setParamU env.url ("cursor") nc))
      (filterCollectionItems (collFilter env) page.items)
      (delParamU env.url ("cursor"))) := by
  have hphase : collectionPhase env = (some (Collection.page
      (page.prevCursor.map (fun pc => setParamU env.url ("cursor") pc))
      (page.nextCursor.map (fun nc => setParamU env.url ("cursor") nc))
      (filterCollectionItems (collFilter env) page.items)
      (delParamU env.url ("cursor"))), [Ev.collDispatch (some c)]) := by
    simp [collectionPhase, hcur, hdisp]
  by_cases ha : env.authSet
  · simp [handleCollection, hphase, hcb, hacc, ha, hauth ha]
  · simp only [Bool.not_eq_true] at ha
    simp [handleCollection, hphase, hcb, hacc, ha]

def w7Page : Page :=
  { items := [RawItem.url ⟨"https://e/u1", []⟩],
    prevCursor := some ("p4"), nextCursor := some ("p6") }

def w7Env : CollEnv :=
  { callbacksSet := true,
    dispatch := fun c => if c = some ("p5") then some w7Page else none,
    counterSet := false, counterVal := none,
    firstCursorSet := false, firstCursorVal := none,
    lastCursorSet := false, lastCursorVal := none,
    authSet := false, authOk := false, accept := none,
    url := ⟨"https://h/x", [("cursor", "p5")]⟩,
    filterSet := false, filterPred := fun _ => true,
    onNotFound := plainText 404 ("nf"), onNotAcceptable := plainText 406 ("na"),
    onUnauthorized := plainText 401 ("ua") }

/-- Witness for C7: request `https://h/x?cursor=p5` with a page having
`prevCursor = p4` and `nextCursor = p6` yields `prev = ?cursor=p4`,
`next = ?cursor=p6`, `partOf = https://h/x`. -/
theorem collection_page_links_witness :
    (handleCollection w7Env).1.2 = some (Collection.page
      (some ⟨"https://h/x", [("cursor", "p4")]⟩)
      (some ⟨"https://h/x", [("cursor", "p6")]⟩)
      [ProjItem.url ⟨"https://e/u1", []⟩]
      ⟨"https://h/x", []⟩) := by
  have h := collection_page_links w7Env ("p5") w7Page rfl (by decide) (by decide)
    (by decide) (by decide)
  rw [h]
  decide

def c8Env : CollEnv :=
  { callbacksSet := true, dispatch := fun _ => none,
    counterSet := false, counterVal := none,
    firstCursorSet := true, firstCursorVal := some ("c0"),
    lastCursorSet := false, lastCursorVal := none,
    authSet := false, authOk := false, accept := none,
    url := ⟨"https://h/x", [("a", "1")]⟩,
    filterSet := false, filterPred := fun _ => true,
    onNotFound := plainText 404 ("nf"), onNotAcceptable := plainText 406 ("na"),
    onUnauthorized := plainText 401 ("ua") }

def c8EnvNullCounter : CollEnv :=
  { c8Env with counterSet := true, counterVal := none }

/-- C8 (code bug): in the cursoring summary branch the code computes
`Number(totalItems)` unconditionally.  With the counter callback absent
this emits the JS `NaN`, and with the counter returning `null` it emits
`0` — in neither case the omitted (`null`) `totalItems` the claim
requires.  The `first`/`last`/no-items parts of the claim do hold. -/
theorem collection_summary_counter_bug :
    (handleCollection c8Env).1.2 =
      some (Collection.collection TotalItems.nanTI none
        (some ⟨"https://h/x", [("a", "1"), ("cursor", "c0")]⟩) none) ∧
    (handleCollection c8EnvNullCounter).1.2 =
      some (Collection.collection (TotalItems.num 0) none
        (some ⟨"https://h/x", [("a", "1"), ("cursor", "c0")]⟩) none) ∧
    TotalItems.nanTI ≠ TotalItems.nullTI ∧
    TotalItems.num 0 ≠ TotalItems.nullTI := by decide

/-- C10 (frame): on the page-request path (cursor query parameter
present) only the dispatcher is invoked among the collection callbacks —
the counter, firstCursor, and lastCursor callbacks are never called. -/
theorem collection_page_frame (env : CollEnv) (c : String)
    (hcur : getParam env.url ("cursor") = some c) :
    Ev.counterCall ∉ (handleCollection env).2 ∧
    Ev.firstCursorCall ∉ (handleCollection env).2 ∧
    Ev.lastCursorCall ∉ (handleCollection env).2 ∧
    ∀ cur, Ev.collDispatch cur ∈ (handleCollection env).2 → cur = some c := by
  by_cases hcb : env.callbacksSet
  · cases hdisp : env.dispatch (some c) with
    | none =>
      have hphase : collectionPhase env = (none, [Ev.collDispatch (some c)]) := by
        simp [collectionPhase, hcur, hdisp]
      simp [handleCollection, hcb, hphase]
    | some page =>
      have hphase : collectionPhase env = (some (Collection.page
          (page.prevCursor.map (fun pc => setParamU env.url ("cursor") pc))
          (page.nextCursor.map (fun nc => setParamU env.url ("cursor") nc))
          (filterCollectionItems (collFilter env) page.items)
          (delParamU env.url ("cursor"))), [Ev.collDispatch (some c)]) := by
        simp [collectionPhase, hcur, hdisp]
      by_cases hacc : acceptsJsonLd env.accept <;> by_cases ha : env.authSet <;>
        by_cases hok : env.authOk <;>
        simp_all [handleCollection, hcb, hphase]
  · simp only [Bool.not_eq_true] at hcb
    simp [handleCollection, hcb]

def w10Env : CollEnv :=
  { w7Env with
    counterSet := true, counterVal := some 42,
    firstCursorSet := true, firstCursorVal := some ("c0"),
    lastCursorSet := true, lastCursorVal := some ("c9") }

/-- Witness for C10: even with counter and both cursor callbacks
configured, a page request does not invoke them. -/
theorem collection_page_frame_witness :
    Ev.counterCall ∉ (handleCollection w10Env).2 ∧
    Ev.firstCursorCall ∉ (handleCollection w10Env).2 ∧
    Ev.lastCursorCall ∉ (handleCollection w10Env).2 :=
  ⟨(collection_page_frame w10Env ("p5") (by decide)).1,
   (collection_page_frame w10Env ("p5") (by decide)).2.1,
   (collection_page_frame w10Env ("p5") (by decide)).2.2.1⟩

@[simp] lemma withPre_fst (pre : List Ev) (p : Response × List Ev) :
    (withPre pre p).1 = p.1 := rfl

@[simp] lemma withPre_snd (pre : List Ev) (p : Response × List Ev) :
    (withPre pre p).2 = pre ++ p.2 := rfl

/-- Every response built by the dispatch tail is a plain-text one. -/
lemma inboxTail3_plain (env : InboxEnv) (act : ActivityV) (ck : Option (List String)) :
    ∃ st s, (inboxTail3 env act ck).1 = plainText st s := by
  unfold inboxTail3
  repeat' split
  all_goals exact ⟨_, _, rfl⟩

lemma inboxTail2_plain (env : InboxEnv) (act : ActivityV) (hs : Bool)
    (ck : Option (List String)) :
    ∃ st s, (inboxTail2 env act hs ck).1 = plainText st s := by
  unfold inboxTail2
  repeat' split
  all_goals try simp only [withPre_fst]
  all_goals first
    | exact ⟨_, _, rfl⟩
    | exact inboxTail3_plain env act ck

lemma inboxTail_plain (env : InboxEnv) (act : ActivityV) (hs : Bool) :
    ∃ st s, (inboxTail env act hs).1 = plainText st s := by
  unfold inboxTail
  repeat' split
  all_goals try simp only [withPre_fst]
  all_goals first
    | exact ⟨_, _, rfl⟩
    | exact inboxTail2_plain env act hs _

/-- Every response of the inbox pipeline is either the caller-supplied
`onNotFound` response or a plain-text response built by the pipeline. -/
lemma handleInbox_plain (env : InboxEnv) :
    (handleInbox env).1 = env.onNotFound ∨
    ∃ st s, (handleInbox env).1 = plainText st s := by
  unfold handleInbox
  split
  · split
    · split
      · split
        · exact Or.inr ⟨_, _, rfl⟩
        · exact Or.inr (inboxTail_plain _ _ _)
        · split
          · exact Or.inr ⟨_, _, rfl⟩
          · exact Or.inr (inboxTail_plain _ _ _)
      · exact Or.inr ⟨_, _, rfl⟩
    · exact Or.inl rfl
  · exact Or.inl rfl

/-- C6 counterexample: a successfully processed inbox delivery yields a
`202` whose `Content-Type` is `text/plain; charset=utf-8`, not
`application/activity+json`. -/
def c6Env : InboxEnv :=
  { dispatcherSet := true, handle := none, getActor := fun _ => false,
    parseOk := true,
    verifyObjectRes := Except.ok (some ⟨none, some ("https://e/@bob"), [0]⟩),
    verifyRequestRes := none, fromJsonLdAct := ⟨none, none, [0]⟩,
    kvPref := ["idem"], kvGet := fun _ => none, ownsKey := true,
    listeners := [0], listenerThrows := false,
    onNotFound := plainText 404 ("nf") }

/-- C6 as stated is false: the inbox pipeline's success response is a
`202` carrying `Content-Type: text/plain; charset=utf-8`. -/
theorem inbox_content_type_cex :
    (handleInbox c6Env).1.status = 202 ∧
    Ev.listenerCall 0 ∈ (handleInbox c6Env).2 ∧
    (handleInbox c6Env).1.contentType ≠ some ("application/activity+json") := by
  decide

/-- C6 amended: every success (200) response of the actor, object, and
collection responders carries `Content-Type: application/activity+json`;
every response the inbox pipeline itself builds — including its 202
success responses — carries `Content-Type: text/plain; charset=utf-8`. -/
theorem success_content_type :
    (∀ env : ActorEnv,
      (handleActor env).1 = env.onNotFound ∨
      (handleActor env).1 = env.onNotAcceptable ∨
      (handleActor env).1 = env.onUnauthorized ∨
      ((handleActor env).1.status = 200 ∧
       (handleActor env).1.contentType = some ("application/activity+json"))) ∧
    (∀ env : ObjectEnv,
      (handleObject env).1 = env.onNotFound ∨
      (handleObject env).1 = env.onNotAcceptable ∨
      (handleObject env).1 = env.onUnauthorized ∨
      ((handleObject env).1.status = 200 ∧
       (handleObject env).1.contentType = some ("application/activity+json"))) ∧
    (∀ env : CollEnv,
      (handleCollection env).1.1 = env.onNotFound ∨
      (handleCollection env).1.1 = env.onNotAcceptable ∨
      (handleCollection env).1.1 = env.onUnauthorized ∨
      ((handleCollection env).1.1.status = 200 ∧
       (handleCollection env).1.1.contentType = some ("application/activity+json"))) ∧
    (∀ env : InboxEnv,
      (handleInbox env).1 = env.onNotFound ∨
      (handleInbox env).1.contentType = some ("text/plain; charset=utf-8")) := by
  refine ⟨?_, ?_, ?_, ?_⟩
  · intro env
    unfold handleActor
    repeat' split
    all_goals simp [jsonLdResponse]
  · intro env
    unfold handleObject
    repeat' split
    all_goals simp [jsonLdResponse]
  · intro env
    unfold handleCollection
    repeat' split
    all_goals simp [jsonLdResponse]
  · intro env
    rcases handleInbox_plain env with h | ⟨st, s, h⟩
    · exact Or.inl h
    · rw [h]
      exact Or.inr rfl

/-! ## Trace characterization of the inbox pipeline -/

/-- Dispatch-stage traces: a listener event heads the trace, commits
follow it, and neither ownership checks nor store reads happen here. -/
lemma inboxTail3_trace (env : InboxEnv) (act : ActivityV) (ck : Option (List String))
    (r : Response) (evs : List Ev) (heq : inboxTail3 env act ck = (r, evs)) :
    (∀ c, Ev.listenerCall c ∈ evs →
      resolveListener env.listeners act.chain = some c ∧
      ∃ post, evs = Ev.listenerCall c :: post ∧
        (∀ k d, Ev.kvSetTrue k d ∈ evs → Ev.kvSetTrue k d ∈ post)) ∧
    (∀ k d, Ev.kvSetTrue k d ∈ evs →
      d = 1 ∧ env.listenerThrows = false ∧ r = resp202empty ∧ ck = some k ∧
      ∃ c, Ev.listenerCall c ∈ evs) ∧
    (∀ b, Ev.ownershipCheck b ∉ evs) ∧
    (∀ k, Ev.kvGetEv k ∉ evs) := by
  unfold inboxTail3 at heq
  split at heq
  · rw [Prod.mk.injEq] at heq
    obtain ⟨rfl, rfl⟩ := heq
    refine ⟨?_, ?_, ?_, ?_⟩ <;> simp
  · rename_i c0 hres
    split at heq
    · rename_i hthrow
      rw [Prod.mk.injEq] at heq
      obtain ⟨rfl, rfl⟩ := heq
      refine ⟨?_, ?_, ?_, ?_⟩
      · intro c hc
        simp only [List.mem_singleton, Ev.listenerCall.injEq] at hc
        subst hc
        exact ⟨hres, [], rfl, by simp⟩
      · intro k d hk
        simp at hk
      · intro b
        simp
      · intro k
        simp
    · rename_i hthrow
      rw [Bool.not_eq_true] at hthrow
      split at heq
      · rename_i k0
        rw [Prod.mk.injEq] at heq
        obtain ⟨rfl, rfl⟩ := heq
        refine ⟨?_, ?_, ?_, ?_⟩
        · intro c hc
          simp only [List.mem_cons, List.not_mem_nil, or_false, Ev.listenerCall.injEq,
            reduceCtorEq, false_or] at hc
          subst hc
          refine ⟨hres, [Ev.kvSetTrue k0 1], rfl, ?_⟩
          intro k d hk
          simpa using hk
        · intro k d hk
          simp only [List.mem_cons, List.not_mem_nil, or_false, Ev.kvSetTrue.injEq,
            reduceCtorEq, false_or] at hk
          obtain ⟨rfl, rfl⟩ := hk
          exact ⟨rfl, hthrow, rfl, rfl, c0, by simp⟩
        · intro b
          simp
        · intro k
          simp
      · rw [Prod.mk.injEq] at heq
        obtain ⟨rfl, rfl⟩ := heq
        refine ⟨?_, ?_, ?_, ?_⟩
        · intro c hc
          simp only [List.mem_singleton, Ev.listenerCall.injEq] at hc
          subst hc
          exact ⟨hres, [], rfl, by simp⟩
        · intro k d hk
          simp at hk
        · intro b
          simp
        · intro k
          simp

/-- Ownership-stage traces: a listener event is preceded (on the
HTTP-signature path) by a successful ownership check; a failed ownership
check yields the 401 mismatch response with no listener event. -/
lemma inboxTail2_trace (env : InboxEnv) (act : ActivityV) (hs : Bool)
    (ck : Option (List String)) (r : Response) (evs : List Ev)
    (heq : inboxTail2 env act hs ck = (r, evs)) :
    (∀ c, Ev.listenerCall c ∈ evs →
      resolveListener env.listeners act.chain = some c ∧
      ∃ pre post, evs = pre ++ Ev.listenerCall c :: post ∧
        (∀ k d, Ev.kvSetTrue k d ∈ evs → Ev.kvSetTrue k d ∈ post) ∧
        (hs = true → Ev.ownershipCheck true ∈ pre) ∧
        (hs = false → ∀ b, Ev.ownershipCheck b ∉ evs)) ∧
    (∀ k d, Ev.kvSetTrue k d ∈ evs →
      d = 1 ∧ env.listenerThrows = false ∧ r = resp202empty ∧ ck = some k ∧
      ∃ c, Ev.listenerCall c ∈ evs) ∧
    (Ev.ownershipCheck false ∈ evs →
      r = plainText 401 ("The signer and the actor do not match.") ∧
      ∀ c, Ev.listenerCall c ∉ evs) ∧
    (∀ k, Ev.kvGetEv k ∉ evs) := by
  unfold inboxTail2 at heq
  split at heq
  · rw [Prod.mk.injEq] at heq
    obtain ⟨rfl, rfl⟩ := heq
    refine ⟨?_, ?_, ?_, ?_⟩ <;> simp
  · split at heq
    · rename_i hhs
      split at heq
      · rcases h3 : inboxTail3 env act ck with ⟨r3, evs3⟩
        rw [h3] at heq
        simp only [withPre] at heq
        rw [Prod.mk.injEq] at heq
        obtain ⟨rfl, rfl⟩ := heq
        obtain ⟨T1, T2, T3, T4⟩ := inboxTail3_trace env act ck r3 evs3 h3
        refine ⟨?_, ?_, ?_, ?_⟩
        · intro c hc
          simp only [List.singleton_append, List.mem_cons, reduceCtorEq, false_or] at hc
          obtain ⟨hres, post, hevs3, hpost⟩ := T1 c hc
          refine ⟨hres, [Ev.ownershipCheck true], post, by simp [hevs3], ?_, ?_, ?_⟩
          · intro k d hk
            simp only [List.singleton_append, List.mem_cons, reduceCtorEq, false_or] at hk
            exact hpost k d hk
          · intro _
            simp
          · intro hfalse
            rw [hfalse] at hhs
            cases hhs
        · intro k d hk
          simp only [List.singleton_append, List.mem_cons, reduceCtorEq, false_or] at hk
          obtain ⟨h1, h2, h3r, h4, c, hc⟩ := T2 k d hk
          exact ⟨h1, h2, h3r, h4, c, by simp [hc]⟩
        · intro hown
          simp only [List.singleton_append, List.mem_cons, Ev.ownershipCheck.injEq] at hown
          rcases hown with hown | hown
          · cases hown
          · exact absurd hown (T3 false)
        · intro k
          simp only [List.singleton_append, List.mem_cons, reduceCtorEq, false_or]
          exact T4 k
      · rw [Prod.mk.injEq] at heq
        obtain ⟨rfl, rfl⟩ := heq
        refine ⟨?_, ?_, ?_, ?_⟩
        · intro c hc
          simp at hc
        · intro k d hk
          simp at hk
        · intro _
          exact ⟨rfl, by simp⟩
        · intro k
          simp
    · rename_i hhs
      rw [Bool.not_eq_true] at hhs
      obtain ⟨T1, T2, T3, T4⟩ := inboxTail3_trace env act ck r evs heq
      refine ⟨?_, ?_, ?_, ?_⟩
      · intro c hc
        obtain ⟨hres, post, hevs, hpost⟩ := T1 c hc
        refine ⟨hres, [], post, by simp [hevs], hpost, ?_, ?_⟩
        · intro htrue
          rw [htrue] at hhs
          cases hhs
        · intro _ b
          exact T3 b
      · exact T2
      · intro hown
        exact absurd hown (T3 false)
      · exact T4

/-- Idempotency-stage traces: store reads precede the listener event, a
replay hit yields the already-processed 202 with no listener, and a
commit names the key derived from the activity id. -/
lemma inboxTail_trace (env : InboxEnv) (act : ActivityV) (hs : Bool)
    (r : Response) (evs : List Ev) (heq : inboxTail env act hs = (r, evs)) :
    (∀ c, Ev.listenerCall c ∈ evs →
      resolveListener env.listeners act.chain = some c ∧
      ∃ pre post, evs = pre ++ Ev.listenerCall c :: post ∧
        (∀ k, Ev.kvGetEv k ∈ evs → Ev.kvGetEv k ∈ pre) ∧
        (∀ k d, Ev.kvSetTrue k d ∈ evs → Ev.kvSetTrue k d ∈ post) ∧
        (hs = true → Ev.ownershipCheck true ∈ pre) ∧
        (hs = false → ∀ b, Ev.ownershipCheck b ∉ evs)) ∧
    (∀ k d, Ev.kvSetTrue k d ∈ evs →
      d = 1 ∧ env.listenerThrows = false ∧ r = resp202empty ∧
      (∃ i, act.id = some i ∧ k = env.kvPref ++ [i]) ∧
      ∃ c, Ev.listenerCall c ∈ evs) ∧
    (Ev.ownershipCheck false ∈ evs →
      r = plainText 401 ("The signer and the actor do not match.") ∧
      ∀ c, Ev.listenerCall c ∉ evs) := by
  unfold inboxTail at heq
  split at heq
  · obtain ⟨T1, T2, T3, T4⟩ := inboxTail2_trace env act hs none r evs heq
    refine ⟨?_, ?_, ?_⟩
    · intro c hc
      obtain ⟨hres, pre, post, hevs, hpost, hown1, hown2⟩ := T1 c hc
      exact ⟨hres, pre, post, hevs, fun k hk => absurd hk (T4 k), hpost, hown1, hown2⟩
    · intro k d hk
      obtain ⟨_, _, _, hck, _⟩ := T2 k d hk
      cases hck
    · exact T3
  · rename_i i hid
    split at heq
    · rw [Prod.mk.injEq] at heq
      obtain ⟨rfl, rfl⟩ := heq
      refine ⟨?_, ?_, ?_⟩
      · intro c hc
        simp at hc
      · intro k d hk
        simp at hk
      · intro hown
        simp at hown
    · rcases h2 : inboxTail2 env act hs (some (env.kvPref ++ [i])) with ⟨r2, evs2⟩
      rw [h2] at heq
      simp only [withPre] at heq
      rw [Prod.mk.injEq] at heq
      obtain ⟨rfl, rfl⟩ := heq
      obtain ⟨T1, T2, T3, T4⟩ :=
        inboxTail2_trace env act hs (some (env.kvPref ++ [i])) r2 evs2 h2
      refine ⟨?_, ?_, ?_⟩
      · intro c hc
        simp only [List.singleton_append, List.mem_cons, reduceCtorEq, false_or] at hc
        obtain ⟨hres, pre, post, hevs2, hpost, hown1, hown2⟩ := T1 c hc
        refine ⟨hres, Ev.kvGetEv (env.kvPref ++ [i]) :: pre, post, by simp [hevs2], ?_, ?_, ?_, ?_⟩
        · intro k hk
          simp only [List.singleton_append, List.mem_cons, Ev.kvGetEv.injEq] at hk
          rcases hk with hk | hk
          · subst hk
            simp
          · exact absurd hk (T4 k)
        · intro k d hk
          simp only [List.singleton_append, List.mem_cons, reduceCtorEq, false_or] at hk
          exact hpost k d hk
        · intro htrue
          exact List.mem_cons_of_mem _ (hown1 htrue)
        · intro hfalse b
          simp only [List.singleton_append, List.mem_cons, reduceCtorEq, false_or]
          exact hown2 hfalse b
      · intro k d hk
        simp only [List.singleton_append, List.mem_cons, reduceCtorEq, false_or] at hk
        obtain ⟨h1, h2', h3r, hck, c, hc⟩ := T2 k d hk
        injection hck with hck
        exact ⟨h1, h2', h3r, ⟨i, hid, hck.symm⟩, c, by simp [hc]⟩
      · intro hown
        simp only [List.singleton_append, List.mem_cons, reduceCtorEq, false_or] at hown
        obtain ⟨h1, h2'⟩ := T3 hown
        refine ⟨h1, ?_⟩
        intro c
        simp only [List.singleton_append, List.mem_cons, reduceCtorEq, false_or]
        exact h2' c

/-- Full-pipeline traces: every listener event is preceded by a
successful verification (and, on the HTTP-signature path, a successful
ownership check) and by any store read; every commit follows the
listener, stores under the activity-id key with a 1-day TTL, and is
answered by the empty 202; a failed ownership check yields the 401
mismatch response with no listener event. -/
lemma handleInbox_trace (env : InboxEnv) (r : Response) (evs : List Ev)
    (heq : handleInbox env = (r, evs)) :
    (∀ c, Ev.listenerCall c ∈ evs →
      ∃ act, inboxActivity env = some act ∧
        resolveListener env.listeners act.chain = some c ∧
        ∃ pre post, evs = pre ++ Ev.listenerCall c :: post ∧
          (∀ k, Ev.kvGetEv k ∈ evs → Ev.kvGetEv k ∈ pre) ∧
          (∀ k d, Ev.kvSetTrue k d ∈ evs → Ev.kvSetTrue k d ∈ post) ∧
          ((Ev.proofVerify true ∈ pre ∧ ∀ b, Ev.ownershipCheck b ∉ evs) ∨
           (Ev.httpSigVerify true ∈ pre ∧ Ev.ownershipCheck true ∈ pre))) ∧
    (∀ k d, Ev.kvSetTrue k d ∈ evs →
      d = 1 ∧ env.listenerThrows = false ∧ r = resp202empty ∧
      (∃ act i, inboxActivity env = some act ∧ act.id = some i ∧
        k = env.kvPref ++ [i]) ∧
      ∃ c, Ev.listenerCall c ∈ evs) ∧
    (Ev.ownershipCheck false ∈ evs →
      r = plainText 401 ("The signer and the actor do not match.") ∧
      ∀ c, Ev.listenerCall c ∉ evs) := by
  unfold handleInbox at heq
  split at heq
  case isFalse =>
    rw [Prod.mk.injEq] at heq
    obtain ⟨rfl, rfl⟩ := heq
    refine ⟨?_, ?_, ?_⟩ <;> simp
  split at heq
  case isFalse =>
    rw [Prod.mk.injEq] at heq
    obtain ⟨rfl, rfl⟩ := heq
    refine ⟨?_, ?_, ?_⟩ <;> simp
  split at heq
  case isFalse =>
    rw [Prod.mk.injEq] at heq
    obtain ⟨rfl, rfl⟩ := heq
    refine ⟨?_, ?_, ?_⟩ <;> simp
  split at heq
  case h_1 =>
    rw [Prod.mk.injEq] at heq
    obtain ⟨rfl, rfl⟩ := heq
    refine ⟨?_, ?_, ?_⟩ <;> simp
  case h_2 act hvo =>
    rcases hT : inboxTail env act false with ⟨rT, evsT⟩
    rw [hT] at heq
    simp only [withPre] at heq
    rw [Prod.mk.injEq] at heq
    obtain ⟨rfl, rfl⟩ := heq
    obtain ⟨T1, T2, T3⟩ := inboxTail_trace env act false rT evsT hT
    have hact : inboxActivity env = some act := by
      simp [inboxActivity, hvo]
    refine ⟨?_, ?_, ?_⟩
    · intro c hc
      simp only [List.singleton_append, List.mem_cons, reduceCtorEq, false_or] at hc
      obtain ⟨hres, pre, post, hevsT, hget, hset, _, hownF⟩ := T1 c hc
      refine ⟨act, hact, hres, Ev.proofVerify true :: pre, post, by simp [hevsT],
        ?_, ?_, ?_⟩
      · intro k hk
        simp only [List.singleton_append, List.mem_cons, reduceCtorEq, false_or] at hk
        exact List.mem_cons_of_mem _ (hget k hk)
      · intro k d hk
        simp only [List.singleton_append, List.mem_cons, reduceCtorEq, false_or] at hk
        exact hset k d hk
      · refine Or.inl ⟨by simp, ?_⟩
        intro b
        simp only [List.singleton_append, List.mem_cons, reduceCtorEq, false_or]
        exact hownF rfl b
    · intro k d hk
      simp only [List.singleton_append, List.mem_cons, reduceCtorEq, false_or] at hk
      obtain ⟨h1, h2, h3r, ⟨i, hid, hkk⟩, c, hc⟩ := T2 k d hk
      exact ⟨h1, h2, h3r, ⟨act, i, hact, hid, hkk⟩, c, by simp [hc]⟩
    · intro hown
      simp only [List.singleton_append, List.mem_cons, reduceCtorEq, false_or] at hown
      obtain ⟨h1, h2⟩ := T3 hown
      refine ⟨h1, ?_⟩
      intro c
      simp only [List.singleton_append, List.mem_cons, reduceCtorEq, false_or]
      exact h2 c
  case h_3 hvo =>
    split at heq
    case h_1 hvr =>
      rw [Prod.mk.injEq] at heq
      obtain ⟨rfl, rfl⟩ := heq
      refine ⟨?_, ?_, ?_⟩ <;> simp
    case h_2 u hvr =>
      rcases hT : inboxTail env env.fromJsonLdAct true with ⟨rT, evsT⟩
      rw [hT] at heq
      simp only [withPre] at heq
      rw [Prod.mk.injEq] at heq
      obtain ⟨rfl, rfl⟩ := heq
      obtain ⟨T1, T2, T3⟩ := inboxTail_trace env env.fromJsonLdAct true rT evsT hT
      have hact : inboxActivity env = some env.fromJsonLdAct := by
        simp [inboxActivity, hvo, hvr]
      refine ⟨?_, ?_, ?_⟩
      · intro c hc
        simp only [List.cons_append, List.nil_append, List.mem_cons,
          reduceCtorEq, false_or] at hc
        obtain ⟨hres, pre, post, hevsT, hget, hset, hownT, _⟩ := T1 c hc
        refine ⟨env.fromJsonLdAct, hact, hres,
          Ev.proofVerify false :: Ev.httpSigVerify true :: pre, post,
          by simp [hevsT], ?_, ?_, ?_⟩
        · intro k hk
          simp only [List.cons_append, List.nil_append, List.mem_cons, reduceCtorEq, false_or] at hk
          exact List.mem_cons_of_mem _ (List.mem_cons_of_mem _ (hget k hk))
        · intro k d hk
          simp only [List.cons_append, List.nil_append, List.mem_cons, reduceCtorEq, false_or] at hk
          exact hset k d hk
        · refine Or.inr ⟨by simp, ?_⟩
          exact List.mem_cons_of_mem _ (List.mem_cons_of_mem _ (hownT rfl))
      · intro k d hk
        simp only [List.cons_append, List.nil_append, List.mem_cons, reduceCtorEq, false_or] at hk
        obtain ⟨h1, h2, h3r, ⟨i, hid, hkk⟩, c, hc⟩ := T2 k d hk
        exact ⟨h1, h2, h3r, ⟨env.fromJsonLdAct, i, hact, hid, hkk⟩, c, by simp [hc]⟩
      · intro hown
        simp only [List.cons_append, List.nil_append, List.mem_cons, reduceCtorEq, false_or] at hown
        obtain ⟨h1, h2⟩ := T3 hown
        refine ⟨h1, ?_⟩
        intro c
        simp only [List.cons_append, List.nil_append, List.mem_cons, reduceCtorEq, false_or]
        exact h2 c

/-- C2: within a single inbox request the listener invocation happens
strictly after signature verification (proof or HTTP-signature) and
after the idempotency-store query, and strictly before the idempotency
commit; the commit (storing true with a 1-day TTL under the key computed
from the activity id) occurs only if the listener returned without
throwing, after which the response is the empty-body 202. -/
theorem inbox_listener_ordering (env : InboxEnv) (r : Response) (evs : List Ev)
    (heq : handleInbox env = (r, evs)) :
    (∀ c, Ev.listenerCall c ∈ evs →
      ∃ pre post, evs = pre ++ Ev.listenerCall c :: post ∧
        (Ev.proofVerify true ∈ pre ∨ Ev.httpSigVerify true ∈ pre) ∧
        (∀ k, Ev.kvGetEv k ∈ evs → Ev.kvGetEv k ∈ pre) ∧
        (∀ k d, Ev.kvSetTrue k d ∈ evs → Ev.kvSetTrue k d ∈ post)) ∧
    (∀ k d, Ev.kvSetTrue k d ∈ evs →
      d = 1 ∧ env.listenerThrows = false ∧
      (∃ act i, inboxActivity env = some act ∧ act.id = some i ∧
        k = env.kvPref ++ [i]) ∧
      (∃ c, Ev.listenerCall c ∈ evs) ∧
      r = resp202empty) := by
  obtain ⟨T1, T2, _⟩ := handleInbox_trace env r evs heq
  constructor
  · intro c hc
    obtain ⟨act, _, _, pre, post, hevs, hget, hset, hver⟩ := T1 c hc
    refine ⟨pre, post, hevs, ?_, hget, hset⟩
    rcases hver with ⟨h, _⟩ | ⟨h, _⟩
    · exact Or.inl h
    · exact Or.inr h
  · intro k d hk
    obtain ⟨h1, h2, h3, h4, h5⟩ := T2 k d hk
    exact ⟨h1, h2, h4, h5, h3⟩

def w2Env : InboxEnv :=
  { dispatcherSet := true, handle := some ("alice"),
    getActor := fun h => h == "alice", parseOk := true,
    verifyObjectRes :=
      Except.ok (some ⟨some ("https://e/a/2"), some ("https://e/@bob"), [3, 0]⟩),
    verifyRequestRes := none, fromJsonLdAct := ⟨none, none, [0]⟩,
    kvPref := ["idem"], kvGet := fun _ => none, ownsKey := true,
    listeners := [3], listenerThrows := false,
    onNotFound := plainText 404 ("nf") }

/-- Witness for C2: a successful delivery commits under the activity-id
key and yields the empty 202. -/
theorem inbox_listener_ordering_witness :
    (handleInbox w2Env).1 = resp202empty ∧
    Ev.kvSetTrue ["idem", "https://e/a/2"] 1 ∈ (handleInbox w2Env).2 :=
  ⟨((inbox_listener_ordering w2Env (handleInbox w2Env).1 (handleInbox w2Env).2
      rfl).2 (["idem", "https://e/a/2"]) 1 (by decide)).2.2.2.2,
   by decide⟩

/-- C3: the listener, whenever invoked, is preceded in the same request
by either a successful embedded-proof verification, or a successful
HTTP-signature verification together with a successful key-ownership
check (proof-verified activities skip the ownership check); on the
HTTP-signature path a false ownership predicate yields the 401 response
"The signer and the actor do not match." with no listener invocation. -/
theorem inbox_listener_authenticated (env : InboxEnv) (r : Response) (evs : List Ev)
    (heq : handleInbox env = (r, evs)) :
    (∀ c, Ev.listenerCall c ∈ evs →
      ∃ pre post, evs = pre ++ Ev.listenerCall c :: post ∧
        ((Ev.proofVerify true ∈ pre ∧ ∀ b, Ev.ownershipCheck b ∉ evs) ∨
         (Ev.httpSigVerify true ∈ pre ∧ Ev.ownershipCheck true ∈ pre))) ∧
    (Ev.ownershipCheck false ∈ evs →
      r = plainText 401 ("The signer and the actor do not match.") ∧
      ∀ c, Ev.listenerCall c ∉ evs) := by
  obtain ⟨T1, _, T3⟩ := handleInbox_trace env r evs heq
  constructor
  · intro c hc
    obtain ⟨act, _, _, pre, post, hevs, _, _, hver⟩ := T1 c hc
    exact ⟨pre, post, hevs, hver⟩
  · exact T3

def w3Env : InboxEnv :=
  { dispatcherSet := true, handle := none, getActor := fun _ => false,
    parseOk := true, verifyObjectRes := Except.ok none,
    verifyRequestRes := some (),
    fromJsonLdAct := ⟨some ("https://e/a/3"), some ("https://e/@bob"), [3, 0]⟩,
    kvPref := ["idem"], kvGet := fun _ => none, ownsKey := false,
    listeners := [3], listenerThrows := false,
    onNotFound := plainText 404 ("nf") }

/-- Witness for C3: an HTTP-signature delivery whose signer does not own
the key gets the 401 mismatch response and no listener runs. -/
theorem inbox_listener_authenticated_witness :
    (handleInbox w3Env).1 =
      plainText 401 ("The signer and the actor do not match.") ∧
    Ev.listenerCall 3 ∉ (handleInbox w3Env).2 :=
  have h := (inbox_listener_authenticated w3Env (handleInbox w3Env).1
    (handleInbox w3Env).2 rfl).2 (by decide)
  ⟨h.1, h.2 3⟩

/-- C1 amended: replay short-circuiting requires the stored value to be
exactly the boolean `true` (the code compares with strict equality); in
that case the response is the already-processed 202 and no listener is
invoked. -/
theorem inbox_replay_hit (env : InboxEnv) (act : ActivityV) (i : String)
    (hd : env.dispatcherSet = true) (hh : inboxHandleOk env = true)
    (hp : env.parseOk = true) (hact : inboxActivity env = some act)
    (hid : act.id = some i)
    (hkv : env.kvGet (env.kvPref ++ [i]) = some (KvValue.vBool true)) :
    (handleInbox env).1 =
      plainText 202 ("Activity <" ++ i ++ "> has already been processed.") ∧
    ∀ c, Ev.listenerCall c ∉ (handleInbox env).2 := by
  unfold inboxActivity at hact
  cases hvo : env.verifyObjectRes with
  | error e =>
    rw [hvo] at hact
    cases hact
  | ok oa =>
    cases oa with
    | some a =>
      rw [hvo] at hact
      simp only [Option.some.injEq] at hact
      subst hact
      constructor
      · simp [handleInbox, hd, hh, hp, hvo, inboxTail, hid, hkv, withPre]
      · intro c
        simp [handleInbox, hd, hh, hp, hvo, inboxTail, hid, hkv, withPre]
    | none =>
      rw [hvo] at hact
      cases hvr : env.verifyRequestRes with
      | none =>
        rw [hvr] at hact
        cases hact
      | some u =>
        rw [hvr] at hact
        simp only [Option.some.injEq] at hact
        constructor
        · simp [handleInbox, hd, hh, hp, hvo, hvr, inboxTail, hact, hid, hkv, withPre]
        · intro c
          simp [handleInbox, hd, hh, hp, hvo, hvr, inboxTail, hact, hid, hkv, withPre]

def w1Env : InboxEnv :=
  { dispatcherSet := true, handle := none, getActor := fun _ => false,
    parseOk := true,
    verifyObjectRes :=
      Except.ok (some ⟨some ("https://e/a/1"), some ("https://e/@bob"), [0]⟩),
    verifyRequestRes := none, fromJsonLdAct := ⟨none, none, [0]⟩,
    kvPref := ["idem"],
    kvGet := fun k =>
      if k = ["idem", "https://e/a/1"] then some (KvValue.vBool true) else none,
    ownsKey := true, listeners := [0], listenerThrows := false,
    onNotFound := plainText 404 ("nf") }

/-- Witness for C1 (amended): a stored `true` short-circuits. -/
theorem inbox_replay_hit_witness :
    (handleInbox w1Env).1 =
      plainText 202 ("Activity <https://e/a/1> has already been processed.") ∧
    Ev.listenerCall 0 ∉ (handleInbox w1Env).2 :=
  have h := inbox_replay_hit w1Env
    ⟨some ("https://e/a/1"), some ("https://e/@bob"), [0]⟩ ("https://e/a/1")
    rfl rfl rfl rfl rfl (by decide)
  ⟨h.1, h.2 0⟩

def c1Env : InboxEnv :=
  { w1Env with
    kvGet := fun k =>
      if k = ["idem", "https://e/a/1"] then some (KvValue.vNum 1) else none }

/-- C1 counterexample: the claim speaks of any truthy stored value, but
the code compares with `=== true`; the truthy number `1` does not
short-circuit — the listener still runs and the response is not the
already-processed one. -/
theorem inbox_replay_truthy_cex :
    truthy (KvValue.vNum 1) = true ∧
    c1Env.kvGet (c1Env.kvPref ++ ["https://e/a/1"]) = some (KvValue.vNum 1) ∧
    inboxActivity c1Env =
      some ⟨some ("https://e/a/1"), some ("https://e/@bob"), [0]⟩ ∧
    Ev.listenerCall 0 ∈ (handleInbox c1Env).2 ∧
    (handleInbox c1Env).1 ≠
      plainText 202 ("Activity <https://e/a/1> has already been processed.") := by
  refine ⟨rfl, by decide, by decide, by decide, by decide⟩

/-- When the walk finds no listener, the tail answers the empty 202
without any listener event. -/
lemma inboxTail_no_listener (env : InboxEnv) (act : ActivityV) (hs : Bool)
    (hkv : ∀ i, act.id = some i →
      env.kvGet (env.kvPref ++ [i]) ≠ some (KvValue.vBool true))
    (ha : act.actorId.isSome = true)
    (how : hs = true → env.ownsKey = true)
    (hres : resolveListener env.listeners act.chain = none) :
    ∃ evs, inboxTail env act hs = (resp202empty, evs) ∧
      ∀ c, Ev.listenerCall c ∉ evs := by
  rcases hact2 : act.actorId with _ | aid
  · rw [hact2] at ha
    cases ha
  · have h3 : ∀ ck, inboxTail3 env act ck = (resp202empty, []) := fun ck => by
      simp [inboxTail3, hres]
    rcases hid : act.id with _ | i
    · cases hs with
      | false =>
        refine ⟨[], ?_, by simp⟩
        simp [inboxTail, hid, inboxTail2, hact2, h3]
      | true =>
        refine ⟨[Ev.ownershipCheck true], ?_, by simp⟩
        simp [inboxTail, hid, inboxTail2, hact2, how rfl, h3, withPre]
    · have hkvi := hkv i hid
      cases hs with
      | false =>
        refine ⟨[Ev.kvGetEv (env.kvPref ++ [i])], ?_, by simp⟩
        simp [inboxTail, hid, hkvi, inboxTail2, hact2, h3, withPre]
      | true =>
        refine ⟨[Ev.kvGetEv (env.kvPref ++ [i]), Ev.ownershipCheck true], ?_, by simp⟩
        simp [inboxTail, hid, hkvi, inboxTail2, hact2, how rfl, h3, withPre]

/-- C9: listener resolution walks the activity's class chain from the
concrete class, probing the registrations at each level; the first
registered hit wins (on a well-formed chain ending at the `Activity`
root the walk computes the first chain member with a registration, so an
ancestor registration — including one on the root — handles subclasses);
if the walk finds no hit the response is the empty-body 202 and no
listener is invoked; and any invoked listener is the one the walk
resolves. -/
theorem inbox_listener_resolution :
    (∀ (reg l : List Nat), activityRoot ∉ l →
      resolveListener reg (l ++ [activityRoot]) =
        (l ++ [activityRoot]).find? (fun c => decide (c ∈ reg))) ∧
    (∀ (env : InboxEnv) (act : ActivityV) (r : Response) (evs : List Ev),
      env.dispatcherSet = true → inboxHandleOk env = true →
      env.parseOk = true → inboxActivity env = some act →
      (∀ i, act.id = some i →
        env.kvGet (env.kvPref ++ [i]) ≠ some (KvValue.vBool true)) →
      act.actorId.isSome = true → env.ownsKey = true →
      handleInbox env = (r, evs) →
      resolveListener env.listeners act.chain = none →
      r = resp202empty ∧ ∀ c, Ev.listenerCall c ∉ evs) ∧
    (∀ (env : InboxEnv) (r : Response) (evs : List Ev) (c : Nat),
      handleInbox env = (r, evs) → Ev.listenerCall c ∈ evs →
      ∃ act, inboxActivity env = some act ∧
        resolveListener env.listeners act.chain = some c) := by
  refine ⟨?_, ?_, ?_⟩
  · intro reg l hl
    induction l with
    | nil =>
      by_cases hm : activityRoot ∈ reg <;>
        simp [resolveListener, hm, List.find?]
    | cons x xs ih =>
      have hx : ¬x = activityRoot := fun h => hl (by rw [h]; exact List.mem_cons_self _ _)
      have hxs : activityRoot ∉ xs := fun h => hl (List.mem_cons_of_mem _ h)
      by_cases hm : x ∈ reg
      · simp [resolveListener, hm, List.find?]
      · rw [List.cons_append]
        rw [List.find?_cons_of_neg _ (by simpa using hm)]
        rw [← ih hxs]
        simp [resolveListener, hm, hx]
  · intro env act r evs hd hh hp hact hkv ha how heq hres
    unfold inboxActivity at hact
    cases hvo : env.verifyObjectRes with
    | error e =>
      rw [hvo] at hact
      cases hact
    | ok oa =>
      cases oa with
      | some a =>
        rw [hvo] at hact
        simp only [Option.some.injEq] at hact
        subst hact
        obtain ⟨evsT, hT, hnol⟩ := inboxTail_no_listener env a false hkv ha
          (fun h => by cases h) hres
        have hcomp : handleInbox env = (resp202empty, Ev.proofVerify true :: evsT) := by
          simp [handleInbox, hd, hh, hp, hvo, hT, withPre]
        rw [heq] at hcomp
        rw [Prod.mk.injEq] at hcomp
        obtain ⟨rfl, rfl⟩ := hcomp
        refine ⟨rfl, ?_⟩
        intro c
        simp only [List.mem_cons, reduceCtorEq, false_or]
        exact hnol c
      | none =>
        rw [hvo] at hact
        cases hvr : env.verifyRequestRes with
        | none =>
          rw [hvr] at hact
          cases hact
        | some u =>
          rw [hvr] at hact
          simp only [Option.some.injEq] at hact
          rw [← hact] at hres hkv ha
          obtain ⟨evsT, hT, hnol⟩ := inboxTail_no_listener env env.fromJsonLdAct true
            hkv ha (fun _ => how) hres
          have hcomp : handleInbox env =
              (resp202empty,
               Ev.proofVerify false :: Ev.httpSigVerify true :: evsT) := by
            simp [handleInbox, hd, hh, hp, hvo, hvr, hT, withPre]
          rw [heq] at hcomp
          rw [Prod.mk.injEq] at hcomp
          obtain ⟨rfl, rfl⟩ := hcomp
          refine ⟨rfl, ?_⟩
          intro c
          simp only [List.mem_cons, reduceCtorEq, false_or]
          exact hnol c
  · intro env r evs c heq hc
    obtain ⟨act, hact, hres, _⟩ := (handleInbox_trace env r evs heq).1 c hc
    exact ⟨act, hact, hres⟩

def w9Act : ActivityV := ⟨none, some ("https://e/@bob"), [5, 0]⟩

def w9Env : InboxEnv :=
  { dispatcherSet := true, handle := none, getActor := fun _ => false,
    parseOk := true, verifyObjectRes := Except.ok (some w9Act),
    verifyRequestRes := none, fromJsonLdAct := ⟨none, none, [0]⟩,
    kvPref := ["idem"], kvGet := fun _ => none, ownsKey := true,
    listeners := [], listenerThrows := false,
    onNotFound := plainText 404 ("nf") }

/-- Witness for C9: an `Announce`-like chain `[5, 0]` with a lone root
registration resolves to the root; with no registrations at all the
response is the empty 202 and no listener runs. -/
theorem inbox_listener_resolution_witness :
    resolveListener [0] ([5] ++ [0]) =
      ([5] ++ [0]).find? (fun c => decide (c ∈ ([0] : List Nat))) ∧
    (handleInbox w9Env).1 = resp202empty ∧
    Ev.listenerCall 0 ∉ (handleInbox w9Env).2 :=
  have h2 := inbox_listener_resolution.2.1 w9Env w9Act (handleInbox w9Env).1
    (handleInbox w9Env).2 rfl rfl rfl (by decide)
    (by intro i h; simp [w9Act] at h) (by decide) rfl rfl (by decide)
  ⟨inbox_listener_resolution.1 [0] [5] (by decide), h2.1, h2.2 0⟩

end Fedify
